import Mathlib

/-!
Shallow embedding of the matching service from
src/rfp-tracker-backend/src/service/matching-service.ts.

The service delegates all scoring to two external collaborators, which the
embedding models as explicit oracle functions passed to each operation:

- the LLM agent, modelled as a function from the prompt string to an
  AgentOutcome; the outcome err covers both a failed agent call and a JSON
  response that fails to parse (in the source both raise inside the same
  try block, after the single agent.ask call);
- the knowledge base search, modelled as a function from the search prompt
  and the limit to either an error or a list of search hits.

Numbers are modelled as rationals; the source manipulates scores only with
division, multiplication by 100, comparisons, and Math.round, all of which
are exact rational operations here. Math.round in JavaScript equals
floor(x + 1/2), which is how jsRound is defined below.

Operations that issue agent calls in a loop also return the list of prompts
sent to the agent, in order, so that statements about which external calls
were made can be expressed.
-/

/-- Mirrors the ProjectTuple interface: only id and description are read by
the matching functions (the optional metadata fields are passed through to
the store and never influence matching control flow). -/
structure ProjectTuple where
  id : String
  description : String
deriving DecidableEq

/-- Mirrors the MatchingResult interface. -/
structure MatchingResult where
  id : String
  score : ℚ
  isGoodFit : Bool
  reasoning : String
  matchedAreas : List String
deriving DecidableEq

/-- The fields the source reads off the parsed JSON object returned by the
agent; each is optional because the JSON may lack any of them. -/
structure MatchData where
  score : Option ℚ
  reasoning : Option String
  matchedAreas : Option (List String)
deriving DecidableEq

/-- Outcome of one agent.ask call followed by JSON.parse: ok with the parsed
data, or err with the error message (covers both a failed call and a parse
failure, which the source handles in one catch block). -/
inductive AgentOutcome where
  | ok (data : MatchData)
  | err (msg : String)
deriving DecidableEq

/-- One hit returned by kb.searchContextsWithPrompt: the stored projectId
metadata field, the stored context text, the relevance score, and the
optional reasoning attached by the search service. -/
structure SearchHit where
  projectId : String
  text : String
  score : ℚ
  reasoning : Option String
deriving DecidableEq

/-- JavaScript Math.round: floor of x + 1/2 (ties go toward positive
infinity). -/
def jsRound (q : ℚ) : ℤ := ⌊q + 1 / 2⌋

/-- Math.round(x * 100) / 100, the two-decimal rounding used for the
statistics block. -/
def round2 (q : ℚ) : ℚ := (jsRound (q * 100) : ℚ) / 100

/-- JavaScript s1 or-else s2 for strings: the empty string is falsy, so it
also falls back to the default. -/
def jsOrStr (o : Option String) (d : String) : String :=
  match o with
  | none => d
  | some s => if s = "" then d else s

/-- The prompt template built by buildMatchingPrompt. Literal braces from
the JSON example in the template are written with hex escapes. -/
def buildMatchingPrompt (companyProfile projectDescription : String) : String :=
  "Analyze how well this company matches with the project requirements.\n\nCompany Profile:\n"
    ++ companyProfile
    ++ "\n\nProject Description:\n"
    ++ projectDescription
    ++ "\n\nEvaluate the match and respond with a JSON object containing:\n\x7b\n  \"score\": <number from 0-100>,\n  \"reasoning\": \"<detailed explanation of why this score was given>\",\n  \"matchedAreas\": [<array of specific areas where company capabilities align with project needs>]\n\x7d\n\nConsider the following factors:\n- Technical skills and expertise alignment\n- Industry experience and domain knowledge\n- Company size and capacity to handle the project\n- Relevant past work or specializations\n- Any specific requirements mentioned in the project description\n\nProvide a score where:\n- 90-100: Excellent fit, company strongly matches all key requirements\n- 70-89: Good fit, company matches most requirements with minor gaps\n- 50-69: Moderate fit, some alignment but notable gaps exist\n- 30-49: Poor fit, limited alignment with requirements\n- 0-29: Very poor fit, significant misalignment"

/-- Descending-score order used by the sort comparator (a, b) => b.score -
a.score: a may come before b exactly when b.score <= a.score. -/
abbrev scoreGe (a b : MatchingResult) : Prop := b.score ≤ a.score

instance : IsTotal MatchingResult scoreGe := ⟨fun a b => le_total b.score a.score⟩

instance : IsTrans MatchingResult scoreGe := ⟨fun _ _ _ hab hbc => le_trans hbc hab⟩

/-- results.sort((a, b) => b.score - a.score). JavaScript Array.sort is a
stable sort of the comparator order; the stable sort of a list under a total
preorder is unique, and insertion sort computes it. -/
def sortByScoreDesc (l : List MatchingResult) : List MatchingResult :=
  List.insertionSort scoreGe l

/-- The body of one iteration of the matchProjects loop: build the prompt,
ask the agent, and either default-fill the parsed fields (score to 0,
reasoning to a placeholder, matchedAreas to the empty list) or, on any
error, record a zero-score entry whose reasoning carries the error
message. -/
def processProject (agent : String → AgentOutcome) (companyProfile : String)
    (threshold : ℚ) (p : ProjectTuple) : MatchingResult :=
  match agent (buildMatchingPrompt companyProfile p.description) with
  | .ok d =>
      { id := p.id
        score := d.score.getD 0
        isGoodFit := decide (threshold ≤ d.score.getD 0)
        reasoning := jsOrStr d.reasoning "No reasoning provided"
        matchedAreas := d.matchedAreas.getD [] }
  | .err msg =>
      { id := p.id
        score := 0
        isGoodFit := false
        reasoning := "Error processing: " ++ msg
        matchedAreas := [] }

/-- The matchProjects loop over the project list; the second component is
the list of prompts sent to the agent, in order (the source issues exactly
one agent.ask per project, before any parse can fail). -/
def matchLoop (agent : String → AgentOutcome) (companyProfile : String) (threshold : ℚ) :
    List ProjectTuple → List MatchingResult × List String
  | [] => ([], [])
  | p :: ps =>
      let rest := matchLoop agent companyProfile threshold ps
      (processProject agent companyProfile threshold p :: rest.1,
       buildMatchingPrompt companyProfile p.description :: rest.2)

/-- matchProjects: validate, loop over the projects, sort by score
descending. The first component is the returned value or the thrown error
message; the second is the list of prompts sent to the agent. -/
def matchProjectsRun (agent : String → AgentOutcome) (companyProfile : String)
    (projects : List ProjectTuple) (threshold : ℚ) :
    Except String (List MatchingResult) × List String :=
  if companyProfile = "" ∨ projects.length = 0 then
    (.error "Company profile and projects list are required", [])
  else
    let run := matchLoop agent companyProfile threshold projects
    (.ok (sortByScoreDesc run.1), run.2)

/-- The contiguous chunks visited by the batch loop for i = 0; i < length;
i += batchSize over projects.slice(i, i + batchSize). For batchSize = 0 the
JavaScript loop never terminates on a non-empty list; the claims only
concern batchSize of at least 1, where this definition is faithful. -/
def chunkList {α : Type} (n : ℕ) : List α → List (List α)
  | [] => []
  | x :: xs =>
    if n = 0 then [x :: xs]
    else (x :: xs).take n :: chunkList n ((x :: xs).drop n)
termination_by l => l.length
decreasing_by
  simp only [List.length_drop, List.length_cons]
  omega

/-- The matchProjectsBatch loop: call matchProjects per chunk, concatenating
results and prompt traces; a thrown error aborts the loop and propagates. -/
def batchLoop (agent : String → AgentOutcome) (companyProfile : String) (threshold : ℚ) :
    List (List ProjectTuple) → Except String (List MatchingResult) × List String
  | [] => (.ok [], [])
  | c :: cs =>
      match matchProjectsRun agent companyProfile c threshold with
      | (.error e, tr) => (.error e, tr)
      | (.ok rs, tr) =>
          match batchLoop agent companyProfile threshold cs with
          | (.error e, tr₂) => (.error e, tr ++ tr₂)
          | (.ok rest, tr₂) => (.ok (rs ++ rest), tr ++ tr₂)

/-- matchProjectsBatch: chunk the list, run matchProjects per chunk in
order, then sort the full concatenation by score descending. It performs no
input validation of its own. -/
def matchProjectsBatchRun (agent : String → AgentOutcome) (companyProfile : String)
    (projects : List ProjectTuple) (threshold : ℚ) (batchSize : ℕ) :
    Except String (List MatchingResult) × List String :=
  match batchLoop agent companyProfile threshold (chunkList batchSize projects) with
  | (.error e, tr) => (.error e, tr)
  | (.ok rs, tr) => (.ok (sortByScoreDesc rs), tr)

/-- The fixed technology vocabulary of extractMatchedAreas, in source
order. -/
def technologies : List String :=
  ["React", "Node.js", "TypeScript", "Python", "AWS", "PostgreSQL",
   "MongoDB", "GraphQL", "Docker", "Kubernetes"]

/-- JavaScript text.toLowerCase(), as the list of lowered characters (the
vocabulary is ASCII, where the two lowering functions agree). -/
def lowerChars (s : String) : List Char := s.data.map Char.toLower

/-- JavaScript haystack.includes(needle): substring containment. -/
def containsSub (haystack needle : List Char) : Bool := decide (needle <:+: haystack)

/-- The per-technology test of extractMatchedAreas: the lowered term occurs
in both the lowered project description and the lowered company profile. -/
def techMatches (tech projectDescription companyProfile : String) : Bool :=
  containsSub (lowerChars projectDescription) (lowerChars tech)
    && containsSub (lowerChars companyProfile) (lowerChars tech)

/-- extractMatchedAreas: push each matching vocabulary term in order, and
fall back to a fixed placeholder when nothing matched. -/
def extractMatchedAreas (projectDescription companyProfile : String) : List String :=
  let areas := technologies.foldl
    (fun acc tech =>
      if techMatches tech projectDescription companyProfile then acc ++ [tech] else acc)
    []
  if areas.length > 0 then areas else ["General capabilities match"]

/-- matchProjectsWithKnowledgeBase: validate the profile, issue one search
call (modelled by the kbSearch oracle applied to the exact prompt and
limit), map each hit to a MatchingResult, sort by score descending. An
error from the search call is rethrown wrapped. -/
def matchProjectsWithKnowledgeBase (kbSearch : String → ℕ → Except String (List SearchHit))
    (companyProfile : String) (limit : ℕ) (threshold : ℚ) :
    Except String (List MatchingResult) :=
  if companyProfile = "" then
    .error "Company profile is required"
  else
    match kbSearch ("Find projects that match this company profile:\n\n" ++ companyProfile) limit with
    | .error e => .error ("Failed to match projects: " ++ e)
    | .ok results =>
        .ok (sortByScoreDesc (results.map (fun r =>
          { id := r.projectId
            score := r.score
            isGoodFit := decide (threshold ≤ r.score)
            reasoning := jsOrStr r.reasoning "No reasoning provided"
            matchedAreas := extractMatchedAreas r.text companyProfile })))

/-- One record of the similarProjects analysis list. -/
structure SimilarProjectAnalysis where
  id : String
  similarity : ℚ
  companyFitScore : ℚ
  isCompanyFit : Bool
deriving DecidableEq

/-- The statistics block of the fit analysis. -/
structure FitStatistics where
  totalSimilarProjects : ℕ
  goodFitProjects : ℕ
  goodFitPercentage : ℚ
  averageFitScore : ℚ
deriving DecidableEq

/-- The record returned by isProjectGoodFitByKnowledgeBase. -/
structure FitAnalysis where
  isGoodFit : Bool
  confidence : ℤ
  reasoning : String
  similarProjects : List SimilarProjectAnalysis
  statistics : FitStatistics
deriving DecidableEq

/-- The all-zero statistics block of the two terminal short-circuits. -/
def zeroStatistics : FitStatistics :=
  { totalSimilarProjects := 0, goodFitProjects := 0,
    goodFitPercentage := 0, averageFitScore := 0 }

/-- generateFitReasoning: templated sentence interpolating the rounded
percentage, rounded average score, total count, and good-fit count. -/
def generateFitReasoning (goodFit : Bool) (goodFitPercentage averageFitScore : ℚ)
    (totalProjects goodFitProjects : ℕ) : String :=
  let percentage := jsRound goodFitPercentage
  let avgScore := jsRound averageFitScore
  if goodFit then
    "This project is a GOOD FIT for your company. Analysis of "
      ++ toString totalProjects ++ " similar projects shows that "
      ++ toString goodFitProjects ++ " (" ++ toString percentage
      ++ "%) are a good match for your capabilities, with an average fit score of "
      ++ toString avgScore
      ++ "/100. This indicates strong alignment between your company profile and projects of this type."
  else
    "This project may NOT be a good fit for your company. Analysis of "
      ++ toString totalProjects ++ " similar projects shows that only "
      ++ toString goodFitProjects ++ " (" ++ toString percentage
      ++ "%) are a good match for your capabilities, with an average fit score of "
      ++ toString avgScore
      ++ "/100. This suggests potential gaps between your company profile and projects of this type."

/-- The search prompt issued by step 1 of isProjectGoodFitByKnowledgeBase. -/
def similarSearchPrompt (projectDescription : String) : String :=
  "Find projects similar to this one:\n\n" ++ projectDescription

/-- One iteration of the per-candidate loop of
isProjectGoodFitByKnowledgeBase: ask the agent with the matching prompt; on
success record the analysis row, on any call or parse error drop the
candidate (the source only logs and continues). -/
def analyzeCandidate (agent : String → AgentOutcome) (companyProfile : String)
    (fitThreshold : ℚ) (hit : SearchHit) : Option SimilarProjectAnalysis :=
  match agent (buildMatchingPrompt companyProfile hit.text) with
  | .ok d =>
      some { id := hit.projectId
             similarity := hit.score
             companyFitScore := d.score.getD 0
             isCompanyFit := decide (fitThreshold ≤ d.score.getD 0) }
  | .err _ => none

/-- isProjectGoodFitByKnowledgeBase: validate, search for similar projects,
filter by the similarity threshold, short-circuit on an empty filtered set,
score each surviving candidate with the agent dropping failures,
short-circuit again if none survived, then aggregate and build the verdict.
An error from the search call is rethrown wrapped. -/
def isProjectGoodFitByKnowledgeBase (kbSearch : String → ℕ → Except String (List SearchHit))
    (agent : String → AgentOutcome) (projectDescription companyProfile : String)
    (similarityThreshold fitThreshold : ℚ) (limitSimilar : ℕ) :
    Except String FitAnalysis :=
  if projectDescription = "" ∨ companyProfile = "" then
    .error "Project description and company profile are required"
  else
    match kbSearch (similarSearchPrompt projectDescription) limitSimilar with
    | .error e => .error ("Failed to check project fit: " ++ e)
    | .ok similarProjectResults =>
        let relevantSimilarProjects :=
          similarProjectResults.filter (fun r => decide (similarityThreshold ≤ r.score))
        if relevantSimilarProjects.length = 0 then
          .ok { isGoodFit := false
                confidence := 0
                reasoning := "No similar projects found in knowledge base to make a comparison."
                similarProjects := []
                statistics := zeroStatistics }
        else
          let similarProjectsAnalysis :=
            relevantSimilarProjects.filterMap (analyzeCandidate agent companyProfile fitThreshold)
          let totalSimilarProjects := similarProjectsAnalysis.length
          if totalSimilarProjects = 0 then
            .ok { isGoodFit := false
                  confidence := 0
                  reasoning := "Unable to analyze similar projects. No similar projects could be successfully processed."
                  similarProjects := []
                  statistics := zeroStatistics }
          else
            let goodFitProjects :=
              (similarProjectsAnalysis.filter (fun p => p.isCompanyFit)).length
            let goodFitPercentage := ((goodFitProjects : ℚ) / (totalSimilarProjects : ℚ)) * 100
            let averageFitScore :=
              (similarProjectsAnalysis.map (fun p => p.companyFitScore)).sum
                / (totalSimilarProjects : ℚ)
            let goodFit := decide ((50 : ℚ) ≤ goodFitPercentage)
            let confidence := jsRound goodFitPercentage
            .ok { isGoodFit := goodFit
                  confidence := confidence
                  reasoning := generateFitReasoning goodFit goodFitPercentage averageFitScore
                    totalSimilarProjects goodFitProjects
                  similarProjects := similarProjectsAnalysis
                  statistics :=
                    { totalSimilarProjects := totalSimilarProjects
                      goodFitProjects := goodFitProjects
                      goodFitPercentage := round2 goodFitPercentage
                      averageFitScore := round2 averageFitScore } }

/-- The success or failure record returned by initializeKnowledgeBase. -/
structure InitResult where
  success : Bool
  message : String
deriving DecidableEq

/-- initializeKnowledgeBase: the entire body sits in one try/catch whose
catch returns a normal success-false record, so the method always resolves;
the Except result type records that the promise could in principle reject,
and the definition shows it never does. The upsert argument is the outcome
of the single kb.upsertKnowledgeBase call (the fixed schema passed to that
call does not influence control flow and is elided). -/
def initializeKnowledgeBase (upsert : Except String Unit) : Except String InitResult :=
  match upsert with
  | .ok _ => .ok { success := true, message := "Knowledge base initialized successfully" }
  | .error e =>
      .ok { success := false,
            message := "Failed to initialize knowledge base: " ++ e }

theorem processProject_id (agent : String → AgentOutcome) (companyProfile : String)
    (threshold : ℚ) (p : ProjectTuple) :
    (processProject agent companyProfile threshold p).id = p.id := by
  unfold processProject
  cases agent (buildMatchingPrompt companyProfile p.description) <;> rfl

theorem matchLoop_fst (agent : String → AgentOutcome) (companyProfile : String)
    (threshold : ℚ) (projects : List ProjectTuple) :
    (matchLoop agent companyProfile threshold projects).1 =
      projects.map (processProject agent companyProfile threshold) := by
  induction projects with
  | nil => rfl
  | cons p ps ih => simp [matchLoop, ih]

theorem matchLoop_snd (agent : String → AgentOutcome) (companyProfile : String)
    (threshold : ℚ) (projects : List ProjectTuple) :
    (matchLoop agent companyProfile threshold projects).2 =
      projects.map (fun p => buildMatchingPrompt companyProfile p.description) := by
  induction projects with
  | nil => rfl
  | cons p ps ih => simp [matchLoop, ih]

theorem sortByScoreDesc_perm (l : List MatchingResult) : (sortByScoreDesc l).Perm l :=
  List.perm_insertionSort scoreGe l

theorem sortByScoreDesc_pairwise (l : List MatchingResult) :
    List.Pairwise scoreGe (sortByScoreDesc l) :=
  List.sorted_insertionSort scoreGe l

theorem matchProjectsRun_ok (agent : String → AgentOutcome) (companyProfile : String)
    (projects : List ProjectTuple) (threshold : ℚ)
    (hcp : companyProfile ≠ "") (hps : projects ≠ []) :
    matchProjectsRun agent companyProfile projects threshold =
      (.ok (sortByScoreDesc (projects.map (processProject agent companyProfile threshold))),
       projects.map (fun p => buildMatchingPrompt companyProfile p.description)) := by
  unfold matchProjectsRun
  rw [if_neg]
  · simp only [matchLoop_fst, matchLoop_snd]
  · simp [hcp, hps]

theorem chunkList_flatten {α : Type} (n : ℕ) (hn : 1 ≤ n) (l : List α) :
    (chunkList n l).flatten = l := by
  induction l using chunkList.induct n with
  | case1 => simp [chunkList]
  | case2 x xs hzero => omega
  | case3 x xs hzero ih =>
    rw [chunkList]
    simp only [hzero, if_false]
    rw [List.flatten_cons, ih]
    exact List.take_append_drop n (x :: xs)

theorem chunkList_ne_nil {α : Type} (n : ℕ) (hn : 1 ≤ n) (l : List α)
    (c : List α) (hc : c ∈ chunkList n l) : c ≠ [] := by
  induction l using chunkList.induct n with
  | case1 => simp [chunkList] at hc
  | case2 x xs hzero => omega
  | case3 x xs hzero ih =>
    rw [chunkList] at hc
    simp only [hzero, if_false, List.mem_cons] at hc
    rcases hc with hc | hc
    · subst hc
      cases n with
      | zero => omega
      | succ m => simp [List.take]
    · exact ih hc

theorem batchLoop_ok (agent : String → AgentOutcome) (companyProfile : String)
    (threshold : ℚ) (hcp : companyProfile ≠ "")
    (cs : List (List ProjectTuple)) (hcs : ∀ c ∈ cs, c ≠ []) :
    ∃ rs tr, batchLoop agent companyProfile threshold cs = (.ok rs, tr) ∧
      rs.Perm (cs.flatten.map (processProject agent companyProfile threshold)) := by
  induction cs with
  | nil => exact ⟨[], [], rfl, by simp⟩
  | cons c cs ih =>
    obtain ⟨rs, tr, heq, hperm⟩ := ih (fun d hd => hcs d (List.mem_cons_of_mem c hd))
    have hc : c ≠ [] := hcs c (List.mem_cons_self c cs)
    refine ⟨sortByScoreDesc (c.map (processProject agent companyProfile threshold)) ++ rs,
      c.map (fun p => buildMatchingPrompt companyProfile p.description) ++ tr, ?_, ?_⟩
    · rw [batchLoop, matchProjectsRun_ok agent companyProfile c threshold hcp hc, heq]
    · rw [List.flatten_cons, List.map_append]
      exact (sortByScoreDesc_perm _).append hperm

/-- C5: for every non-empty companyProfile and non-empty projects list,
matchProjects succeeds, its output length equals the number of input
projects, its multiset of ids equals the multiset of input project ids (so
each input project id occurs exactly as often in the output as in the
input), and adjacent scores are non-increasing. -/
theorem matchProjects_shape (agent : String → AgentOutcome) (companyProfile : String)
    (projects : List ProjectTuple) (threshold : ℚ)
    (hcp : companyProfile ≠ "") (hps : projects ≠ []) :
    ∃ out, (matchProjectsRun agent companyProfile projects threshold).1 = .ok out ∧
      out.length = projects.length ∧
      (out.map (fun r => r.id)).Perm (projects.map (fun p => p.id)) ∧
      (∀ pid : String, ((out.map (fun r => r.id)).count pid)
        = ((projects.map (fun p => p.id)).count pid)) ∧
      List.Chain' (fun a b => b.score ≤ a.score) out := by
  refine ⟨sortByScoreDesc (projects.map (processProject agent companyProfile threshold)),
    ?_, ?_, ?_, ?_, ?_⟩
  · rw [matchProjectsRun_ok agent companyProfile projects threshold hcp hps]
  · rw [(sortByScoreDesc_perm _).length_eq, List.length_map]
  · have h := (sortByScoreDesc_perm
      (projects.map (processProject agent companyProfile threshold))).map (fun r => r.id)
    rw [List.map_map] at h
    refine h.trans (List.Perm.of_eq ?_)
    exact List.map_congr_left (fun p _ => processProject_id agent companyProfile threshold p)
  · intro pid
    have h := (sortByScoreDesc_perm
      (projects.map (processProject agent companyProfile threshold))).map (fun r => r.id)
    rw [List.map_map] at h
    rw [h.count_eq pid]
    congr 1
    exact List.map_congr_left (fun p _ => processProject_id agent companyProfile threshold p)
  · exact (sortByScoreDesc_pairwise _).chain'

/-- Witness for C5 at a concrete two-project input. -/
theorem matchProjects_shape_witness :
    ∃ out, (matchProjectsRun (fun _ => AgentOutcome.ok ⟨some 80, some "fine", some ["React"]⟩)
        "We build web apps" [⟨"p1", "frontend"⟩, ⟨"p2", "backend"⟩] 60).1 = .ok out ∧
      out.length = ([⟨"p1", "frontend"⟩, ⟨"p2", "backend"⟩] : List ProjectTuple).length ∧
      (out.map (fun r => r.id)).Perm
        (([⟨"p1", "frontend"⟩, ⟨"p2", "backend"⟩] : List ProjectTuple).map (fun p => p.id)) ∧
      (∀ pid : String, ((out.map (fun r => r.id)).count pid)
        = ((([⟨"p1", "frontend"⟩, ⟨"p2", "backend"⟩] : List ProjectTuple).map
            (fun p => p.id)).count pid)) ∧
      List.Chain' (fun a b => b.score ≤ a.score) out :=
  matchProjects_shape (fun _ => AgentOutcome.ok ⟨some 80, some "fine", some ["React"]⟩)
    "We build web apps" [⟨"p1", "frontend"⟩, ⟨"p2", "backend"⟩] 60
    (by decide) (by decide)

/-- C6: an empty companyProfile or an empty projects list makes
matchProjects fail with the InvalidArgument message, with an empty agent
call trace (no external call is made) and no partial results. -/
theorem matchProjects_invalid_input (agent : String → AgentOutcome) (companyProfile : String)
    (projects : List ProjectTuple) (threshold : ℚ)
    (h : companyProfile = "" ∨ projects = []) :
    matchProjectsRun agent companyProfile projects threshold =
      (.error "Company profile and projects list are required", []) := by
  unfold matchProjectsRun
  rcases h with h | h <;> simp [h]

/-- Witness for C6 at an empty profile with a non-empty project list. -/
theorem matchProjects_invalid_input_witness :
    matchProjectsRun (fun _ => AgentOutcome.err "never called") "" [⟨"p1", "d"⟩] 60 =
      (.error "Company profile and projects list are required", []) :=
  matchProjects_invalid_input (fun _ => AgentOutcome.err "never called") "" [⟨"p1", "d"⟩] 60
    (Or.inl rfl)

/-- C10: matchProjectsBatch performs no validation of its own: on an empty
projects list it returns an empty result list with an empty agent call
trace for every companyProfile (empty included) and every batch size,
whereas matchProjects rejects the same inputs with the InvalidArgument
message. -/
theorem matchProjectsBatch_empty_input (agent : String → AgentOutcome)
    (companyProfile : String) (threshold : ℚ) (batchSize : ℕ) :
    matchProjectsBatchRun agent companyProfile [] threshold batchSize = (.ok [], []) ∧
    matchProjectsRun agent companyProfile [] threshold =
      (.error "Company profile and projects list are required", []) := by
  constructor
  · unfold matchProjectsBatchRun
    rw [show chunkList batchSize ([] : List ProjectTuple) = [] from by rw [chunkList]]
    rfl
  · unfold matchProjectsRun
    simp

theorem mem_matchProjects_ok (agent : String → AgentOutcome) (companyProfile : String)
    (projects : List ProjectTuple) (threshold : ℚ) (out : List MatchingResult)
    (hout : (matchProjectsRun agent companyProfile projects threshold).1 = .ok out)
    (r : MatchingResult) (hr : r ∈ out) :
    ∃ p ∈ projects, r = processProject agent companyProfile threshold p := by
  unfold matchProjectsRun at hout
  by_cases h : companyProfile = "" ∨ projects.length = 0
  · rw [if_pos h] at hout
    exact absurd hout (by simp)
  · rw [if_neg h] at hout
    simp only [Except.ok.injEq] at hout
    subst hout
    have hmem := (sortByScoreDesc_perm (matchLoop agent companyProfile threshold projects).1).mem_iff.mp hr
    rw [matchLoop_fst] at hmem
    obtain ⟨p, hp, hpe⟩ := List.mem_map.mp hmem
    exact ⟨p, hp, hpe.symm⟩

/-- C4 (amended): every result of matchProjects with a strictly positive
threshold, and every result of matchProjectsWithKnowledgeBase with any
threshold in [0, 100], has isGoodFit equal to score >= threshold. (At
threshold 0 a matchProjects per-item-error result violates the equality:
see the counterexample.) -/
theorem isGoodFit_iff_score_ge_threshold :
    (∀ (agent : String → AgentOutcome) (companyProfile : String)
        (projects : List ProjectTuple) (threshold : ℚ),
        0 < threshold → threshold ≤ 100 →
        ∀ out, (matchProjectsRun agent companyProfile projects threshold).1 = .ok out →
        ∀ r ∈ out, r.isGoodFit = decide (threshold ≤ r.score)) ∧
    (∀ (kbSearch : String → ℕ → Except String (List SearchHit))
        (companyProfile : String) (limit : ℕ) (threshold : ℚ),
        0 ≤ threshold → threshold ≤ 100 →
        ∀ out, matchProjectsWithKnowledgeBase kbSearch companyProfile limit threshold = .ok out →
        ∀ r ∈ out, r.isGoodFit = decide (threshold ≤ r.score)) := by
  constructor
  · intro agent companyProfile projects threshold hpos _ out hout r hr
    obtain ⟨p, _, hpe⟩ := mem_matchProjects_ok agent companyProfile projects threshold out hout r hr
    subst hpe
    unfold processProject
    cases agent (buildMatchingPrompt companyProfile p.description) with
    | ok d => rfl
    | err msg =>
      simp only []
      rw [eq_comm, decide_eq_false_iff_not]
      exact not_le.mpr hpos
  · intro kbSearch companyProfile limit threshold _ _ out hout r hr
    unfold matchProjectsWithKnowledgeBase at hout
    by_cases h : companyProfile = ""
    · rw [if_pos h] at hout
      exact absurd hout (by simp)
    · rw [if_neg h] at hout
      cases hkb : kbSearch ("Find projects that match this company profile:\n\n" ++ companyProfile) limit with
      | error e => rw [hkb] at hout; exact absurd hout (by simp)
      | ok results =>
        rw [hkb] at hout
        simp only [Except.ok.injEq] at hout
        subst hout
        have hmem := (sortByScoreDesc_perm _).mem_iff.mp hr
        obtain ⟨hit, _, hpe⟩ := List.mem_map.mp hmem
        subst hpe
        rfl

/-- The concrete result of the matchProjects per-item error branch used in
the counterexample for C4. -/
def errBranchResult : MatchingResult :=
  { id := "a", score := 0, isGoodFit := false,
    reasoning := "Error processing: boom", matchedAreas := [] }

/-- Counterexample to C4 as stated: at threshold 0 (inside the claimed
range [0, 100]) the per-item error branch of matchProjects yields a result
with isGoodFit = false although its score 0 satisfies score >= 0. -/
theorem isGoodFit_threshold_zero_cex :
    (matchProjectsRun (fun _ => AgentOutcome.err "boom") "profile" [⟨"a", "d"⟩] 0).1 =
      .ok [errBranchResult] ∧
    errBranchResult.isGoodFit ≠ decide ((0 : ℚ) ≤ errBranchResult.score) := by
  constructor
  · rfl
  · decide

/-- The concrete result of the matchProjects success branch used in the
witness for C4. -/
def okBranchResult : MatchingResult :=
  { id := "a", score := 80, isGoodFit := true,
    reasoning := "No reasoning provided", matchedAreas := [] }

/-- The concrete result of the matchProjectsWithKnowledgeBase path used in
the witness for C4. -/
def kbHitResult : MatchingResult :=
  { id := "p1", score := 75, isGoodFit := true,
    reasoning := "No reasoning provided", matchedAreas := ["General capabilities match"] }

/-- Witness for C4 (amended) on both operations at concrete inputs, with
every hypothesis discharged there. -/
theorem isGoodFit_iff_score_ge_threshold_witness :
    okBranchResult.isGoodFit = decide ((60 : ℚ) ≤ okBranchResult.score) ∧
    kbHitResult.isGoodFit = decide ((60 : ℚ) ≤ kbHitResult.score) :=
  ⟨isGoodFit_iff_score_ge_threshold.1 (fun _ => AgentOutcome.ok ⟨some 80, none, none⟩)
      "profile" [⟨"a", "d"⟩] 60 (by norm_num) (by norm_num)
      [okBranchResult] rfl okBranchResult (by decide),
   isGoodFit_iff_score_ge_threshold.2 (fun _ _ => .ok [⟨"p1", "text", 75, none⟩])
      "profile" 10 60 (by norm_num) (by norm_num)
      [kbHitResult] rfl kbHitResult (by decide)⟩

theorem matchProjectsBatchRun_ok (agent : String → AgentOutcome) (companyProfile : String)
    (threshold : ℚ) (hcp : companyProfile ≠ "") (projects : List ProjectTuple) (n : ℕ)
    (hn : 1 ≤ n ∨ projects = []) :
    ∃ rs, (matchProjectsBatchRun agent companyProfile projects threshold n).1 =
        .ok (sortByScoreDesc rs) ∧
      rs.Perm (projects.map (processProject agent companyProfile threshold)) := by
  rcases hn with hn | rfl
  · obtain ⟨rs, tr, heq, hperm⟩ := batchLoop_ok agent companyProfile threshold hcp
      (chunkList n projects) (fun c hc => chunkList_ne_nil n hn projects c hc)
    refine ⟨rs, ?_, ?_⟩
    · unfold matchProjectsBatchRun
      rw [heq]
    · rw [chunkList_flatten n hn projects] at hperm
      exact hperm
  · refine ⟨[], ?_, by simp⟩
    unfold matchProjectsBatchRun
    rw [show chunkList n ([] : List ProjectTuple) = [] from by rw [chunkList]]
    rfl

/-- C7: with a non-empty companyProfile and any batch size N of at least 1,
matchProjectsBatch succeeds, its output is a permutation (same multiset) of
the output obtained with batchSize = projects.length, both outputs have
non-increasing adjacent scores, and the chunks the batch loop visits
reassemble to exactly the input list. The agent is a fixed function of the
prompt throughout, which is the determinism assumption of the claim. -/
theorem batch_size_invariance (agent : String → AgentOutcome) (companyProfile : String)
    (projects : List ProjectTuple) (threshold : ℚ) (batchSize : ℕ)
    (hcp : companyProfile ≠ "") (hbs : 1 ≤ batchSize) :
    ∃ out₁ out₂,
      (matchProjectsBatchRun agent companyProfile projects threshold batchSize).1 = .ok out₁ ∧
      (matchProjectsBatchRun agent companyProfile projects threshold projects.length).1 = .ok out₂ ∧
      out₁.Perm out₂ ∧
      List.Chain' (fun a b => b.score ≤ a.score) out₁ ∧
      List.Chain' (fun a b => b.score ≤ a.score) out₂ ∧
      (chunkList batchSize projects).flatten = projects := by
  obtain ⟨rs₁, h₁, p₁⟩ := matchProjectsBatchRun_ok agent companyProfile threshold hcp
    projects batchSize (Or.inl hbs)
  obtain ⟨rs₂, h₂, p₂⟩ := matchProjectsBatchRun_ok agent companyProfile threshold hcp
    projects projects.length
    (by
      cases projects with
      | nil => exact Or.inr rfl
      | cons p ps => exact Or.inl (by simp))
  refine ⟨sortByScoreDesc rs₁, sortByScoreDesc rs₂, h₁, h₂, ?_, ?_, ?_, ?_⟩
  · exact ((sortByScoreDesc_perm rs₁).trans p₁).trans
      (p₂.symm.trans (sortByScoreDesc_perm rs₂).symm)
  · exact (sortByScoreDesc_pairwise rs₁).chain'
  · exact (sortByScoreDesc_pairwise rs₂).chain'
  · exact chunkList_flatten batchSize hbs projects

/-- Witness for C7 at a concrete three-project input with batch size 2. -/
theorem batch_size_invariance_witness :
    ∃ out₁ out₂,
      (matchProjectsBatchRun (fun _ => AgentOutcome.ok ⟨some 70, none, none⟩)
        "profile" [⟨"p1", "a"⟩, ⟨"p2", "b"⟩, ⟨"p3", "c"⟩] 60 2).1 = .ok out₁ ∧
      (matchProjectsBatchRun (fun _ => AgentOutcome.ok ⟨some 70, none, none⟩)
        "profile" [⟨"p1", "a"⟩, ⟨"p2", "b"⟩, ⟨"p3", "c"⟩] 60
        ([⟨"p1", "a"⟩, ⟨"p2", "b"⟩, ⟨"p3", "c"⟩] : List ProjectTuple).length).1 = .ok out₂ ∧
      out₁.Perm out₂ ∧
      List.Chain' (fun a b => b.score ≤ a.score) out₁ ∧
      List.Chain' (fun a b => b.score ≤ a.score) out₂ ∧
      (chunkList 2 ([⟨"p1", "a"⟩, ⟨"p2", "b"⟩, ⟨"p3", "c"⟩] : List ProjectTuple)).flatten =
        [⟨"p1", "a"⟩, ⟨"p2", "b"⟩, ⟨"p3", "c"⟩] :=
  batch_size_invariance (fun _ => AgentOutcome.ok ⟨some 70, none, none⟩)
    "profile" [⟨"p1", "a"⟩, ⟨"p2", "b"⟩, ⟨"p3", "c"⟩] 60 2 (by decide) (by decide)

/-- C3: the two per-item failure policies are asymmetric. First part: in
matchProjects an agent or parse error for one project does not abort the
loop; the output still has one entry per input project and contains an
entry for the failing project with score 0, isGoodFit false, reasoning
carrying the error message, and empty matchedAreas. Second part: in
isProjectGoodFitByKnowledgeBase an agent or parse error for one candidate
makes analyzeCandidate return none for it, so the similarProjects list is
exactly the filterMap over the surviving candidates (no zero-filled entry)
and the statistics denominator equals the length of that list. -/
theorem per_item_failure_asymmetry :
    (∀ (agent : String → AgentOutcome) (companyProfile : String)
        (projects : List ProjectTuple) (threshold : ℚ) (p : ProjectTuple) (msg : String),
        companyProfile ≠ "" → p ∈ projects →
        agent (buildMatchingPrompt companyProfile p.description) = .err msg →
        ∃ out, (matchProjectsRun agent companyProfile projects threshold).1 = .ok out ∧
          out.length = projects.length ∧
          ({ id := p.id, score := 0, isGoodFit := false,
             reasoning := "Error processing: " ++ msg,
             matchedAreas := [] } : MatchingResult) ∈ out) ∧
    (∀ (kbSearch : String → ℕ → Except String (List SearchHit))
        (agent : String → AgentOutcome) (pd cp : String)
        (simTh fitTh : ℚ) (lim : ℕ) (hits : List SearchHit) (hit : SearchHit) (msg : String),
        pd ≠ "" → cp ≠ "" →
        kbSearch (similarSearchPrompt pd) lim = .ok hits →
        hit ∈ hits → simTh ≤ hit.score →
        agent (buildMatchingPrompt cp hit.text) = .err msg →
        ∃ r, isProjectGoodFitByKnowledgeBase kbSearch agent pd cp simTh fitTh lim = .ok r ∧
          r.similarProjects =
            (hits.filter (fun h => decide (simTh ≤ h.score))).filterMap
              (analyzeCandidate agent cp fitTh) ∧
          analyzeCandidate agent cp fitTh hit = none ∧
          r.statistics.totalSimilarProjects = r.similarProjects.length) := by
  constructor
  · intro agent companyProfile projects threshold p msg hcp hp herr
    have hps : projects ≠ [] := fun h => by simp [h] at hp
    refine ⟨sortByScoreDesc (projects.map (processProject agent companyProfile threshold)),
      ?_, ?_, ?_⟩
    · rw [matchProjectsRun_ok agent companyProfile projects threshold hcp hps]
    · rw [(sortByScoreDesc_perm _).length_eq, List.length_map]
    · rw [(sortByScoreDesc_perm _).mem_iff]
      refine List.mem_map.mpr ⟨p, hp, ?_⟩
      unfold processProject
      rw [herr]
  · intro kbSearch agent pd cp simTh fitTh lim hits hit msg hpd hcp hok hmem hsim herr
    have hdrop : analyzeCandidate agent cp fitTh hit = none := by
      unfold analyzeCandidate
      rw [herr]
    have hrel : hit ∈ hits.filter (fun h => decide (simTh ≤ h.score)) :=
      List.mem_filter.mpr ⟨hmem, by simpa using hsim⟩
    have hrelne : hits.filter (fun h => decide (simTh ≤ h.score)) ≠ [] :=
      fun h => by simp [h] at hrel
    unfold isProjectGoodFitByKnowledgeBase
    rw [if_neg (by simp [hpd, hcp]), hok]
    simp only []
    rw [if_neg (fun hlen => hrelne (List.length_eq_zero.mp hlen))]
    by_cases h0 : ((hits.filter (fun r => decide (simTh ≤ r.score))).filterMap
        (analyzeCandidate agent cp fitTh)).length = 0
    · rw [if_pos h0]
      exact ⟨_, rfl, (List.length_eq_zero.mp h0).symm, hdrop, rfl⟩
    · rw [if_neg h0]
      exact ⟨_, rfl, rfl, hdrop, rfl⟩

/-- Witness for C3 at concrete inputs: an agent that always fails, one
project for matchProjects and one relevant candidate for the fit
analyzer. -/
theorem per_item_failure_asymmetry_witness :
    (∃ out, (matchProjectsRun (fun _ => AgentOutcome.err "boom") "profile"
        [⟨"a", "d"⟩] 60).1 = .ok out ∧
      out.length = ([⟨"a", "d"⟩] : List ProjectTuple).length ∧
      ({ id := "a", score := 0, isGoodFit := false,
         reasoning := "Error processing: " ++ "boom",
         matchedAreas := [] } : MatchingResult) ∈ out) ∧
    (∃ r, isProjectGoodFitByKnowledgeBase (fun _ _ => .ok [⟨"p1", "t", 80, none⟩])
        (fun _ => AgentOutcome.err "boom") "pd" "cp" 70 60 10 = .ok r ∧
      r.similarProjects =
        (([⟨"p1", "t", 80, none⟩] : List SearchHit).filter
          (fun h => decide ((70 : ℚ) ≤ h.score))).filterMap
            (analyzeCandidate (fun _ => AgentOutcome.err "boom") "cp" 60) ∧
      analyzeCandidate (fun _ => AgentOutcome.err "boom") "cp" 60 ⟨"p1", "t", 80, none⟩ = none ∧
      r.statistics.totalSimilarProjects = r.similarProjects.length) :=
  ⟨per_item_failure_asymmetry.1 (fun _ => AgentOutcome.err "boom") "profile"
      [⟨"a", "d"⟩] 60 ⟨"a", "d"⟩ "boom" (by decide) (by decide) rfl,
   per_item_failure_asymmetry.2 (fun _ _ => .ok [⟨"p1", "t", 80, none⟩])
      (fun _ => AgentOutcome.err "boom") "pd" "cp" 70 60 10
      [⟨"p1", "t", 80, none⟩] ⟨"p1", "t", 80, none⟩ "boom"
      (by decide) (by decide) rfl (by decide) (by decide) rfl⟩

theorem foldl_push_filter {α : Type} (p : α → Bool) (l : List α) (acc : List α) :
    l.foldl (fun a t => if p t then a ++ [t] else a) acc = acc ++ l.filter p := by
  induction l generalizing acc with
  | nil => simp
  | cons x xs ih =>
    by_cases h : p x
    · simp [List.foldl_cons, h, ih, List.filter_cons]
    · simp [List.foldl_cons, h, ih, List.filter_cons]

theorem extractMatchedAreas_eq (pd cp : String) :
    extractMatchedAreas pd cp =
      if (technologies.filter (fun t => techMatches t pd cp)).length > 0 then
        technologies.filter (fun t => techMatches t pd cp)
      else ["General capabilities match"] := by
  unfold extractMatchedAreas
  rw [foldl_push_filter]
  simp

/-- C8: a vocabulary term appears in the matchedAreas computed by
extractMatchedAreas exactly when its lowercase form is a substring of both
the lowercase project text and the lowercase company profile; the matched
terms are listed as the filter of the fixed vocabulary, hence in vocabulary
order; when no term matches the result is exactly the one-element
placeholder list. -/
theorem matchedAreas_keyword_overlap (pd cp : String) :
    ((∀ t ∈ technologies, techMatches t pd cp = false) →
        extractMatchedAreas pd cp = ["General capabilities match"]) ∧
    ((∃ t ∈ technologies, techMatches t pd cp = true) →
        extractMatchedAreas pd cp = technologies.filter (fun t => techMatches t pd cp) ∧
        ∀ t, t ∈ extractMatchedAreas pd cp ↔
          (t ∈ technologies ∧ techMatches t pd cp = true)) := by
  constructor
  · intro h
    rw [extractMatchedAreas_eq]
    have hnil : technologies.filter (fun t => techMatches t pd cp) = [] :=
      List.filter_eq_nil_iff.mpr (fun t ht => by simp [h t ht])
    simp [hnil]
  · rintro ⟨t, ht, hm⟩
    have hpos : 0 < (technologies.filter (fun s => techMatches s pd cp)).length :=
      List.length_pos_of_mem (List.mem_filter.mpr ⟨ht, by simp [hm]⟩)
    have heq : extractMatchedAreas pd cp = technologies.filter (fun s => techMatches s pd cp) := by
      rw [extractMatchedAreas_eq, if_pos hpos]
    refine ⟨heq, fun s => ?_⟩
    rw [heq]
    constructor
    · intro hs
      obtain ⟨h1, h2⟩ := List.mem_filter.mp hs
      exact ⟨h1, by simpa using h2⟩
    · intro ⟨h1, h2⟩
      exact List.mem_filter.mpr ⟨h1, by simp [h2]⟩

/-- Witness for C8: the no-overlap scenario (a blockchain project against a
generic profile) yields the placeholder, and the four-technology scenario
from the spec yields exactly those four vocabulary terms in order. -/
theorem matchedAreas_keyword_overlap_witness :
    extractMatchedAreas "Solidity smart contracts, Ethereum" "We build custom software"
      = ["General capabilities match"] ∧
    extractMatchedAreas "React frontend, Node.js backend, PostgreSQL, AWS hosting"
        "React, Node.js, AWS, PostgreSQL experts"
      = technologies.filter (fun t => techMatches t
          "React frontend, Node.js backend, PostgreSQL, AWS hosting"
          "React, Node.js, AWS, PostgreSQL experts") ∧
    technologies.filter (fun t => techMatches t
        "React frontend, Node.js backend, PostgreSQL, AWS hosting"
        "React, Node.js, AWS, PostgreSQL experts")
      = ["React", "Node.js", "AWS", "PostgreSQL"] :=
  ⟨(matchedAreas_keyword_overlap "Solidity smart contracts, Ethereum"
      "We build custom software").1 (by decide),
   ((matchedAreas_keyword_overlap "React frontend, Node.js backend, PostgreSQL, AWS hosting"
      "React, Node.js, AWS, PostgreSQL experts").2 ⟨"React", by decide, by decide⟩).1,
   by decide⟩

/-- C1: whenever the candidate set that survives similarity filtering and
per-candidate scoring is non-empty, the returned statistics satisfy the
aggregation formulas: totalSimilarProjects is the number of surviving
candidates, goodFitProjects counts isCompanyFit among them,
goodFitPercentage is (goodFitProjects / totalSimilarProjects) * 100 rounded
to two decimals, averageFitScore is the mean companyFitScore rounded to two
decimals, the verdict isGoodFit is the unrounded percentage compared
against 50, and confidence is the rounded unrounded percentage. -/
theorem fit_statistics_formulas (kbSearch : String → ℕ → Except String (List SearchHit))
    (agent : String → AgentOutcome) (pd cp : String)
    (simTh fitTh : ℚ) (lim : ℕ) (hits : List SearchHit)
    (hpd : pd ≠ "") (hcp : cp ≠ "")
    (hok : kbSearch (similarSearchPrompt pd) lim = .ok hits)
    (hne : (hits.filter (fun r => decide (simTh ≤ r.score))).filterMap
      (analyzeCandidate agent cp fitTh) ≠ []) :
    ∃ r, isProjectGoodFitByKnowledgeBase kbSearch agent pd cp simTh fitTh lim = .ok r ∧
      r.similarProjects ≠ [] ∧
      r.statistics.totalSimilarProjects = r.similarProjects.length ∧
      r.statistics.goodFitProjects
        = (r.similarProjects.filter (fun a => a.isCompanyFit)).length ∧
      r.statistics.goodFitPercentage
        = round2 (((r.statistics.goodFitProjects : ℚ)
            / (r.statistics.totalSimilarProjects : ℚ)) * 100) ∧
      r.statistics.averageFitScore
        = round2 ((r.similarProjects.map (fun a => a.companyFitScore)).sum
            / (r.similarProjects.length : ℚ)) ∧
      r.isGoodFit = decide ((50 : ℚ) ≤ ((r.statistics.goodFitProjects : ℚ)
            / (r.statistics.totalSimilarProjects : ℚ)) * 100) ∧
      r.confidence = jsRound (((r.statistics.goodFitProjects : ℚ)
            / (r.statistics.totalSimilarProjects : ℚ)) * 100) := by
  have hrelne : hits.filter (fun r => decide (simTh ≤ r.score)) ≠ [] := by
    intro h
    apply hne
    rw [h]
    rfl
  unfold isProjectGoodFitByKnowledgeBase
  rw [if_neg (by simp [hpd, hcp]), hok]
  simp only []
  rw [if_neg (fun hlen => hrelne (List.length_eq_zero.mp hlen))]
  rw [if_neg (fun hlen => hne (List.length_eq_zero.mp hlen))]
  exact ⟨_, rfl, hne, rfl, rfl, rfl, rfl, rfl, rfl⟩

/-- Witness for C1 with two surviving candidates, both scored 80 by the
agent, with every hypothesis discharged at the concrete input. -/
theorem fit_statistics_formulas_witness :
    ∃ r, isProjectGoodFitByKnowledgeBase
        (fun _ _ => .ok [⟨"p1", "t1", 80, none⟩, ⟨"p2", "t2", 90, none⟩])
        (fun _ => AgentOutcome.ok ⟨some 80, none, none⟩) "pd" "cp" 70 60 10 = .ok r ∧
      r.similarProjects ≠ [] ∧
      r.statistics.totalSimilarProjects = r.similarProjects.length ∧
      r.statistics.goodFitProjects
        = (r.similarProjects.filter (fun a => a.isCompanyFit)).length ∧
      r.statistics.goodFitPercentage
        = round2 (((r.statistics.goodFitProjects : ℚ)
            / (r.statistics.totalSimilarProjects : ℚ)) * 100) ∧
      r.statistics.averageFitScore
        = round2 ((r.similarProjects.map (fun a => a.companyFitScore)).sum
            / (r.similarProjects.length : ℚ)) ∧
      r.isGoodFit = decide ((50 : ℚ) ≤ ((r.statistics.goodFitProjects : ℚ)
            / (r.statistics.totalSimilarProjects : ℚ)) * 100) ∧
      r.confidence = jsRound (((r.statistics.goodFitProjects : ℚ)
            / (r.statistics.totalSimilarProjects : ℚ)) * 100) :=
  fit_statistics_formulas (fun _ _ => .ok [⟨"p1", "t1", 80, none⟩, ⟨"p2", "t2", 90, none⟩])
    (fun _ => AgentOutcome.ok ⟨some 80, none, none⟩) "pd" "cp" 70 60 10
    [⟨"p1", "t1", 80, none⟩, ⟨"p2", "t2", 90, none⟩]
    (by decide) (by decide) rfl (by decide)

/-- C2: if the similarity-filtered candidate set is empty, or no candidate
survives per-candidate scoring, isProjectGoodFitByKnowledgeBase returns a
terminal result with isGoodFit false, confidence 0, an empty
similarProjects list, and the all-zero statistics block; the aggregation
arithmetic is never reached. -/
theorem fit_empty_short_circuit (kbSearch : String → ℕ → Except String (List SearchHit))
    (agent : String → AgentOutcome) (pd cp : String)
    (simTh fitTh : ℚ) (lim : ℕ) (hits : List SearchHit)
    (hpd : pd ≠ "") (hcp : cp ≠ "")
    (hok : kbSearch (similarSearchPrompt pd) lim = .ok hits)
    (hempty : hits.filter (fun r => decide (simTh ≤ r.score)) = [] ∨
      (hits.filter (fun r => decide (simTh ≤ r.score))).filterMap
        (analyzeCandidate agent cp fitTh) = []) :
    ∃ msg, isProjectGoodFitByKnowledgeBase kbSearch agent pd cp simTh fitTh lim =
      .ok { isGoodFit := false, confidence := 0, reasoning := msg,
            similarProjects := [], statistics := zeroStatistics } := by
  unfold isProjectGoodFitByKnowledgeBase
  rw [if_neg (by simp [hpd, hcp]), hok]
  simp only []
  by_cases h1 : hits.filter (fun r => decide (simTh ≤ r.score)) = []
  · rw [if_pos (by rw [h1]; rfl)]
    exact ⟨_, rfl⟩
  · rcases hempty with h | h
    · exact absurd h h1
    · rw [if_neg (fun hlen => h1 (List.length_eq_zero.mp hlen))]
      rw [if_pos (by rw [h]; rfl)]
      exact ⟨_, rfl⟩

/-- Witness for C2: a search that returns no hits at all, so the filtered
set is empty. -/
theorem fit_empty_short_circuit_witness :
    ∃ msg, isProjectGoodFitByKnowledgeBase (fun _ _ => .ok [])
        (fun _ => AgentOutcome.ok ⟨some 80, none, none⟩) "pd" "cp" 70 60 10 =
      .ok { isGoodFit := false, confidence := 0, reasoning := msg,
            similarProjects := [], statistics := zeroStatistics } :=
  fit_empty_short_circuit (fun _ _ => .ok [])
    (fun _ => AgentOutcome.ok ⟨some 80, none, none⟩) "pd" "cp" 70 60 10 []
    (by decide) (by decide) rfl (Or.inl rfl)

/-- Counterexample to C9 as stated: when the underlying upsert call errors,
initializeKnowledgeBase does not propagate a wrapped error to the caller;
its catch-all swallows the error and the method resolves normally with a
success-false record. -/
theorem initializeKnowledgeBase_contains_error_cex :
    initializeKnowledgeBase (Except.error "boom") =
      .ok { success := false, message := "Failed to initialize knowledge base: boom" } := rfl

/-- C9 (amended): an upstream error in the single semantic-search call of
matchProjectsWithKnowledgeBase propagates to the caller as a wrapped error;
an upstream error in initializeKnowledgeBase is instead contained and
surfaced as a normally returned success-false record whose message wraps
the error text. -/
theorem single_shot_upstream_errors :
    (∀ (kbSearch : String → ℕ → Except String (List SearchHit))
        (cp : String) (lim : ℕ) (th : ℚ) (e : String),
        cp ≠ "" →
        kbSearch ("Find projects that match this company profile:\n\n" ++ cp) lim = .error e →
        matchProjectsWithKnowledgeBase kbSearch cp lim th =
          .error ("Failed to match projects: " ++ e)) ∧
    (∀ e : String,
        initializeKnowledgeBase (.error e) =
          .ok { success := false, message := "Failed to initialize knowledge base: " ++ e }) := by
  constructor
  · intro kbSearch cp lim th e hcp herr
    unfold matchProjectsWithKnowledgeBase
    rw [if_neg hcp, herr]
  · intro e
    rfl

/-- Witness for C9 (amended) at a concrete failing store. -/
theorem single_shot_upstream_errors_witness :
    matchProjectsWithKnowledgeBase (fun _ _ => .error "down") "profile" 10 60 =
      .error ("Failed to match projects: " ++ "down") ∧
    initializeKnowledgeBase (.error "down") =
      .ok { success := false, message := "Failed to initialize knowledge base: " ++ "down" } :=
  ⟨single_shot_upstream_errors.1 (fun _ _ => .error "down") "profile" 10 60 "down"
      (by decide) rfl,
   single_shot_upstream_errors.2 "down"⟩
